import Mathlib

/-!
Verification development for the investment-report generator
(`auto_generating_investeent_report/task.py`).

The Python module is shallowly embedded below:
* the regex-based portfolio-summary extraction (`task.py` lines 194-195),
* SHA-256 based report identifiers (`generate_report_id`, line 19-20),
* the JSON-file report store (`save_report` / `load_reports`, lines 23-54),
* the prompt builders (lines 57-150),
* the POST branch of the `index` route (lines 159-238), with the external
  text-generation pipeline modelled as an oracle parameter and the store
  file as an explicit state value.

Machine-level concerns (actual file IO, the Flask framework, the GPT-2
pipeline internals) are outside the embedding; everything the route does
with its inputs and the store is modelled faithfully.
-/

namespace AutoReport

set_option maxRecDepth 100000

/-! ### Character classes (Python `re` ASCII classes and `str.strip`) -/

/-- ASCII `[A-Z]`, as used by the extraction regex. -/
def isUpperAscii (c : Char) : Bool := 65 ≤ c.toNat && c.toNat ≤ 90

/-- ASCII `[a-z]`, as used by the extraction regex. -/
def isLowerAscii (c : Char) : Bool := 97 ≤ c.toNat && c.toNat ≤ 122

/-- Python whitespace (`\s` of the `re` module and `str.strip`), restricted to
the ASCII whitespace characters: space, tab, newline, carriage return,
vertical tab, form feed. -/
def isPySpace (c : Char) : Bool :=
  c.toNat = 32 || c.toNat = 9 || c.toNat = 10 || c.toNat = 13 || c.toNat = 11 || c.toNat = 12

/-- Python `str.strip()`: drop leading and trailing whitespace. -/
def pyStrip (l : List Char) : List Char :=
  (((l.dropWhile isPySpace).reverse).dropWhile isPySpace).reverse

/-- Does the pattern `p` occur at the head of `l`? -/
def startsWithChars : List Char → List Char → Bool
  | [], _ => true
  | _ :: _, [] => false
  | p :: ps, c :: cs => p = c && startsWithChars ps cs

/-- Does the pattern occur as a contiguous substring of `l`? -/
def containsSubstr (pat : List Char) : List Char → Bool
  | [] => startsWithChars pat []
  | c :: rest => startsWithChars pat (c :: rest) || containsSubstr pat rest

/-- String-level wrapper for `containsSubstr`. -/
def containsSubstrStr (pat s : String) : Bool := containsSubstr pat.data s.data

/-! ### The extraction regex `(.*)(Instructions:|1\.|[A-Z][a-z]+\s*:)`

`task.py` line 194 searches for this pattern with `re.DOTALL` and takes
`group(1).strip()` (line 195).  Since `(.*)` is greedy, the match places the
boundary-marker group at the **last** position of the text where one of the
three alternatives can start. -/

/-- Matches the regex fragment `\s*:` at the head of the list. -/
def wsThenColon : List Char → Bool
  | [] => false
  | c :: cs => if c.toNat = 58 then true else if isPySpace c then wsThenColon cs else false

/-- Matches the regex fragment `[a-z]+\s*:` at the head of the list. -/
def lowersWsColon : List Char → Bool
  | [] => false
  | c :: cs => isLowerAscii c && (wsThenColon cs || lowersWsColon cs)

/-- Matches the regex fragment `[A-Z][a-z]+\s*:` at the head of the list. -/
def capWsColon : List Char → Bool
  | [] => false
  | c :: cs => isUpperAscii c && lowersWsColon cs

/-- One of the three boundary-marker alternatives of the extraction regex can
start at the head of `l`. -/
def markerAt (l : List Char) : Bool :=
  startsWithChars "Instructions:".data l || startsWithChars "1.".data l || capWsColon l

/-- Position of the last marker start in `s` among positions `0..n`,
mirroring the backtracking of the greedy `(.*)` group: positions are tried
from the largest down. -/
def lastMarkerLe (s : List Char) : Nat → Option Nat
  | 0 => if markerAt s then some 0 else none
  | n + 1 => if markerAt (s.drop (n + 1)) then some (n + 1) else lastMarkerLe s n

/-- The portfolio-summary extraction of `task.py` lines 194-195: text before
the greedy match of the boundary-marker group, stripped; the whole text
stripped when the regex does not match. -/
def extractSummaryChars (s : List Char) : List Char :=
  match lastMarkerLe s s.length with
  | some i => pyStrip (s.take i)
  | none => pyStrip s

/-- String-level portfolio-summary extraction. -/
def extractSummary (s : String) : String := String.mk (extractSummaryChars s.data)

/-! ### Specification-side extraction functions

`extractLastSpec` renders the (amended) specification sentence "everything
strictly before the last position where a boundary marker starts, stripped".
`extractFirstSpec` renders the claim as frozen: "everything strictly before
the first occurrence of a boundary marker" with the capitalized word of the marker
*immediately* followed by a colon. -/

/-- All positions of `s` (in increasing order) where a code boundary marker
starts. -/
def markerPositions (s : List Char) : List Nat :=
  (List.range (s.length + 1)).filter (fun i => markerAt (s.drop i))

/-- Modelled from the spec sentence as amended: take everything strictly
before the *last* boundary-marker start, stripped, or the whole text stripped
when there is no marker. -/
def extractLastSpec (s : List Char) : List Char :=
  match (markerPositions s).getLast? with
  | some i => pyStrip (s.take i)
  | none => pyStrip s

/-- String-level wrapper for `extractLastSpec`. -/
def extractLastSpecStr (s : String) : String := String.mk (extractLastSpec s.data)

/-- Matches `[a-z]+:` (lowercase run immediately followed by a colon). -/
def lowersColon : List Char → Bool
  | [] => false
  | [_] => false
  | c :: d :: cs => isLowerAscii c && (d.toNat = 58 || lowersColon (d :: cs))

/-- Claim-side boundary marker: the literal `Instructions:`, the literal
`1.`, or a capitalized word *immediately* followed by a colon. -/
def claimMarkerAt (l : List Char) : Bool :=
  startsWithChars "Instructions:".data l || startsWithChars "1.".data l ||
    (match l with
     | [] => false
     | c :: cs => isUpperAscii c && lowersColon cs)

/-- Modelled from the claim as frozen: take everything strictly before the
*first* occurrence of a boundary marker, stripped, or the whole text stripped
when there is no marker. -/
def extractFirstSpec (s : List Char) : List Char :=
  match ((List.range (s.length + 1)).filter (fun i => claimMarkerAt (s.drop i))).head? with
  | some i => pyStrip (s.take i)
  | none => pyStrip s

/-- String-level wrapper for `extractFirstSpec`. -/
def extractFirstSpecStr (s : String) : String := String.mk (extractFirstSpec s.data)

/-! ### SHA-256 and `generate_report_id`

`task.py` line 20 computes `hashlib.sha256(report_text.encode()).hexdigest()`.
The FIPS 180-4 SHA-256 algorithm is embedded below over byte lists (`Nat`
values below 256), with 32-bit words as `Nat` reduced modulo `2^32`;
`encode()` is UTF-8. -/

/-- `2^32`, the modulus of SHA-256 word arithmetic. -/
def wordMod : Nat := 4294967296

/-- Rotate a 32-bit word right by `n` bits. -/
def rotr (n x : Nat) : Nat := ((x >>> n) ||| (x <<< (32 - n))) % wordMod

/-- SHA-256 `Ch(x, y, z)`; 32-bit complement written as xor with `2^32 - 1`. -/
def shaCh (x y z : Nat) : Nat := (x &&& y) ^^^ ((x ^^^ 4294967295) &&& z)

/-- SHA-256 `Maj(x, y, z)`. -/
def shaMaj (x y z : Nat) : Nat := (x &&& y) ^^^ (x &&& z) ^^^ (y &&& z)

/-- SHA-256 small sigma 0. -/
def ssig0 (x : Nat) : Nat := rotr 7 x ^^^ rotr 18 x ^^^ (x >>> 3)

/-- SHA-256 small sigma 1. -/
def ssig1 (x : Nat) : Nat := rotr 17 x ^^^ rotr 19 x ^^^ (x >>> 10)

/-- SHA-256 big sigma 0. -/
def bsig0 (x : Nat) : Nat := rotr 2 x ^^^ rotr 13 x ^^^ rotr 22 x

/-- SHA-256 big sigma 1. -/
def bsig1 (x : Nat) : Nat := rotr 6 x ^^^ rotr 11 x ^^^ rotr 25 x

/-- The 64 SHA-256 round constants (FIPS 180-4, in decimal). -/
def K256 : List Nat :=
  [1116352408, 1899447441, 3049323471, 3921009573,
   961987163, 1508970993, 2453635748, 2870763221,
   3624381080, 310598401, 607225278, 1426881987,
   1925078388, 2162078206, 2614888103, 3248222580,
   3835390401, 4022224774, 264347078, 604807628,
   770255983, 1249150122, 1555081692, 1996064986,
   2554220882, 2821834349, 2952996808, 3210313671,
   3336571891, 3584528711, 113926993, 338241895,
   666307205, 773529912, 1294757372, 1396182291,
   1695183700, 1986661051, 2177026350, 2456956037,
   2730485921, 2820302411, 3259730800, 3345764771,
   3516065817, 3600352804, 4094571909, 275423344,
   430227734, 506948616, 659060556, 883997877,
   958139571, 1322822218, 1537002063, 1747873779,
   1955562222, 2024104815, 2227730452, 2361852424,
   2428436474, 2756734187, 3204031479, 3329325298]

/-- The eight 32-bit words of SHA-256 working state. -/
structure Hash8 where
  w0 : Nat
  w1 : Nat
  w2 : Nat
  w3 : Nat
  w4 : Nat
  w5 : Nat
  w6 : Nat
  w7 : Nat
deriving DecidableEq

/-- The SHA-256 initial hash value (FIPS 180-4, in decimal). -/
def initH : Hash8 :=
  ⟨1779033703, 3144134277, 1013904242, 2773480762,
   1359893119, 2600822924, 528734635, 1541459225⟩

/-- UTF-8 encoding of one code point (Python `str.encode()`). -/
def utf8Bytes (c : Char) : List Nat :=
  let cp := c.toNat
  if cp < 128 then [cp]
  else if cp < 2048 then [192 + cp / 64, 128 + cp % 64]
  else if cp < 65536 then [224 + cp / 4096, 128 + cp / 64 % 64, 128 + cp % 64]
  else [240 + cp / 262144, 128 + cp / 4096 % 64, 128 + cp / 64 % 64, 128 + cp % 64]

/-- UTF-8 encoding of a character list. -/
def utf8Encode (s : List Char) : List Nat := s.foldr (fun c acc => utf8Bytes c ++ acc) []

/-- The message length in bits as eight big-endian bytes. -/
def lenBytes (n : Nat) : List Nat :=
  [(n >>> 56) % 256, (n >>> 48) % 256, (n >>> 40) % 256, (n >>> 32) % 256,
   (n >>> 24) % 256, (n >>> 16) % 256, (n >>> 8) % 256, n % 256]

/-- SHA-256 padding: append `0x80`, zero bytes up to 56 mod 64, then the
bit length. -/
def padMessage (msg : List Nat) : List Nat :=
  msg ++ [128] ++ List.replicate ((119 - msg.length % 64) % 64) 0 ++ lenBytes (8 * msg.length)

/-- Split a byte list into 64-byte blocks. -/
def toBlocks : List Nat → List (List Nat)
  | [] => []
  | b :: rest => (b :: rest).take 64 :: toBlocks ((b :: rest).drop 64)
termination_by l => l.length
decreasing_by simp [List.length_drop]; omega

/-- Combine big-endian bytes into 32-bit words. -/
def bytesToWords : List Nat → List Nat
  | b0 :: b1 :: b2 :: b3 :: rest =>
      (b0 % 256 * 16777216 + b1 % 256 * 65536 + b2 % 256 * 256 + b3 % 256) :: bytesToWords rest
  | _ => []

/-- One step of the message-schedule extension: append
`ssig1 w[n-2] + w[n-7] + ssig0 w[n-15] + w[n-16]` modulo `2^32`. -/
def stepSchedule (w : List Nat) : List Nat :=
  let n := w.length
  w ++ [(ssig1 (w.getD (n - 2) 0) + w.getD (n - 7) 0 + ssig0 (w.getD (n - 15) 0) +
         w.getD (n - 16) 0) % wordMod]

/-- Iterate a function `n` times. -/
def iterFn (f : α → α) : Nat → α → α
  | 0, a => a
  | n + 1, a => iterFn f n (f a)

/-- Extend the 16 block words to the 64-entry message schedule. -/
def fullSchedule (w16 : List Nat) : List Nat := iterFn stepSchedule 48 w16

/-- One SHA-256 compression round with round constant `kt` and schedule word
`wt`. -/
def compressWord (kt wt : Nat) (s : Hash8) : Hash8 :=
  let t1 := (s.w7 + bsig1 s.w4 + shaCh s.w4 s.w5 s.w6 + kt + wt) % wordMod
  let t2 := (bsig0 s.w0 + shaMaj s.w0 s.w1 s.w2) % wordMod
  ⟨(t1 + t2) % wordMod, s.w0, s.w1, s.w2, (s.w3 + t1) % wordMod, s.w4, s.w5, s.w6⟩

/-- Run the 64 compression rounds over paired constants and schedule words. -/
def roundsFold : Hash8 → List (Nat × Nat) → Hash8
  | s, [] => s
  | s, (kt, wt) :: rest => roundsFold (compressWord kt wt s) rest

/-- Process one 64-byte block: compress, then add into the chaining value. -/
def compressBlock (s0 : Hash8) (block : List Nat) : Hash8 :=
  let s := roundsFold s0 (List.zip K256 (fullSchedule (bytesToWords block)))
  ⟨(s0.w0 + s.w0) % wordMod, (s0.w1 + s.w1) % wordMod, (s0.w2 + s.w2) % wordMod,
   (s0.w3 + s.w3) % wordMod, (s0.w4 + s.w4) % wordMod, (s0.w5 + s.w5) % wordMod,
   (s0.w6 + s.w6) % wordMod, (s0.w7 + s.w7) % wordMod⟩

/-- The SHA-256 final state of a byte message. -/
def sha256State (msg : List Nat) : Hash8 := (toBlocks (padMessage msg)).foldl compressBlock initH

/-- Combine 32-bit words into one `Nat`, most significant first. -/
def combineWords (ws : List Nat) : Nat := ws.foldl (fun a w => a * wordMod + w % wordMod) 0

/-- The SHA-256 digest of a byte message as a 256-bit natural number. -/
def sha256Nat (msg : List Nat) : Nat :=
  let s := sha256State msg
  combineWords [s.w0, s.w1, s.w2, s.w3, s.w4, s.w5, s.w6, s.w7]

/-- Lowercase hex digit. -/
def hexDigit (d : Nat) : Char := if d < 10 then Char.ofNat (48 + d) else Char.ofNat (87 + d)

/-- Fixed-width lowercase hex rendering, most significant digit first. -/
def natToHex : Nat → Nat → List Char
  | 0, _ => []
  | n + 1, v => natToHex n (v >>> 4) ++ [hexDigit (v % 16)]

/-- `task.py` line 19-20: the report identifier is the SHA-256 hex digest of
the UTF-8 encoded report text. -/
def generate_report_id (report_text : String) : String :=
  String.mk (natToHex 64 (sha256Nat (utf8Encode report_text.data)))

/-- `task.py` line 210: the canonical report text is the newline-separated
concatenation of the four sections in fixed order. -/
def reportText (portfolio_summary client_insights recommendations disclosures : String) : String :=
  portfolio_summary ++ "\n" ++ client_insights ++ "\n" ++ recommendations ++ "\n" ++ disclosures

/-! ### Data model

Form fields arrive as `Option String` (`request.form.get` yields `None` for a
missing field).  `input_data` (`task.py` lines 162-180) is a dict whose keys
are always present — its `Option String` fields model a present key whose
value may be Python `None` — except `portfolio_summary`, which is absent
until line 197 sets it (`none` models the absent key).  `region` and the
`risk_tolerance` of the client profile are always strings thanks to the `get`
defaults. -/

/-- The nested `client_profile` dict of `input_data`.  `risk_tolerance` is
`Option` because `get_portfolio_summary_prompt` reads it with
`.get("risk_tolerance", "moderate")`, which must handle an absent key. -/
structure ClientProfile where
  name : Option String
  risk_tolerance : Option String
  investment_goals : Option String
deriving DecidableEq

/-- The `input_data` dict built at `task.py` lines 162-180 (plus the
`portfolio_summary` key added at line 197). -/
structure InputData where
  portfolio_name : Option String
  client_profile : ClientProfile
  benchmark : Option String
  asset_allocation : Option String
  return_net : Option String
  return_benchmark : Option String
  risk_metrics : Option String
  top_holdings : Option String
  underperforming_holdings : Option String
  investment_products : Option String
  market_outlook : Option String
  date_range : Option String
  region : String
  portfolio_summary : Option String
deriving DecidableEq

/-- The `report_data` dict persisted by `save_report`
(`task.py` lines 214-221). -/
structure Report where
  report_id : String
  portfolio_summary : String
  client_insights : String
  recommendations : String
  disclosures : String
  input_data : InputData
deriving DecidableEq

/-- The POST form of the single route; every field is free text and may be
absent. -/
structure Form where
  portfolio_name : Option String
  client_name : Option String
  risk_tolerance : Option String
  investment_goals : Option String
  benchmark : Option String
  asset_allocation : Option String
  return_net : Option String
  return_benchmark : Option String
  risk_metrics : Option String
  top_holdings : Option String
  underperforming_holdings : Option String
  investment_products : Option String
  market_outlook : Option String
  date_range : Option String
  region : Option String
deriving DecidableEq

/-! ### The report store (`task.py` lines 16-54)

The store file `investment_reports.json` is modelled as: absent, present but
failing to parse as JSON, or present and parsing to a mapping.  The mapping
is an association list in file order (Python dicts keep insertion order, and
`json.dump`/`json.load` round-trip that order, so the serialized layer is
elided). -/

/-- The state of `investment_reports.json` on disk. -/
inductive StoreFile where
  | absent : StoreFile
  | corrupt : StoreFile
  | good : List (String × Report) → StoreFile
deriving DecidableEq

/-- Python dict assignment `reports[report_id] = report_data`: overwrite the
existing entry in place or append a new one. -/
def insertReport : List (String × Report) → String → Report → List (String × Report)
  | [], k, v => [(k, v)]
  | (k0, v0) :: rest, k, v =>
      if k0 = k then (k, v) :: rest else (k0, v0) :: insertReport rest k v

/-- Python dict key lookup. -/
def lookupReports : List (String × Report) → String → Option Report
  | [], _ => none
  | (k0, v0) :: rest, k => if k0 = k then some v0 else lookupReports rest k

/-- `save_report` (`task.py` lines 23-43): read the existing mapping
(an absent file counts as empty; an unreadable one raises, which the
function logs and re-raises), set the entry at `report_data.report_id`,
write the whole mapping back.  The error value carries the exception
message. -/
def save_report (file : StoreFile) (report_data : Report) : Except String StoreFile :=
  match (match file with
         | StoreFile.absent => Except.ok []
         | StoreFile.corrupt => Except.error "Expecting value: line 1 column 1 (char 0)"
         | StoreFile.good reports => Except.ok reports) with
  | Except.error e => Except.error e
  | Except.ok reports =>
      Except.ok (StoreFile.good (insertReport reports report_data.report_id report_data))

/-- `load_reports` (`task.py` lines 46-54): the parsed mapping, or the empty
mapping when the file is absent or any exception occurs while reading it. -/
def load_reports (file : StoreFile) : List (String × Report) :=
  match file with
  | StoreFile.good reports => reports
  | _ => []

/-! ### Prompt templates (`task.py` lines 57-150)

A langchain `PromptTemplate` behaves, for these templates, as its template
string: `.format(**input_data)` is f-string substitution and extra keys are
ignored.  Each template is therefore embedded as the template `String`; the
placeholders are kept verbatim.  The ASCII apostrophe is spliced in through
`apos` below. -/

/-- The ASCII apostrophe. -/
def apos : String := (Char.ofNat 39).toString

/-- Risk note chosen for `risk_tolerance == "conservative"`
(`task.py` line 61). -/
def conservativeRiskNote : String :=
  "Given the client" ++ apos ++
    "s conservative risk tolerance, the focus is on capital preservation and low-risk investments."

/-- Risk note chosen for `risk_tolerance == "aggressive"` (`task.py` line 63). -/
def aggressiveRiskNote : String :=
  "Given the client" ++ apos ++
    "s aggressive risk tolerance, the focus is on high-growth investments with higher risk."

/-- Risk note chosen for every other risk tolerance (`task.py` line 65). -/
def moderateRiskNote : String :=
  "Given the client" ++ apos ++
    "s moderate risk tolerance, the portfolio is balanced between growth and stability."

/-- `get_portfolio_summary_prompt` (`task.py` lines 57-93): pick the risk
note by `client_profile.get("risk_tolerance", "moderate")` and splice it into
the fixed template. -/
def get_portfolio_summary_prompt (client_profile : ClientProfile) : String :=
  let risk_tolerance := client_profile.risk_tolerance.getD "moderate"
  let risk_note :=
    if risk_tolerance = "conservative" then conservativeRiskNote
    else if risk_tolerance = "aggressive" then aggressiveRiskNote
    else moderateRiskNote
  "\nProvide a detailed portfolio performance summary for {date_range}.\n\n" ++
    "Portfolio Name: {portfolio_name}\n" ++
    "Client Profile: {client_profile}\n" ++
    "Benchmark: {benchmark}\n" ++
    "Asset Allocation: {asset_allocation}\n" ++
    "Net Return: {return_net} (Benchmark Return: {return_benchmark})\n" ++
    "Risk Metrics: {risk_metrics}\n" ++
    "Top Holdings: {top_holdings}\n" ++
    "Underperforming Holdings: {underperforming_holdings}\n\n" ++
    risk_note ++
    "\n\nInstructions:\n" ++
    "- Clearly state how the portfolio performed relative to the benchmark.\n" ++
    "- Identify key risk metrics and their impact on performance.\n" ++
    "- Summarize the top-performing and underperforming assets.\n" ++
    "- Provide a professional financial report summary.\n"

/-- `client_insights_prompt` (`task.py` lines 96-110). -/
def client_insights_prompt : String :=
  "\nClient Profile: {client_profile}\n" ++
    "Portfolio Summary: {portfolio_summary}\n" ++
    "Risk Metrics: {risk_metrics}\n" ++
    "Market Outlook: {market_outlook}\n\n" ++
    "Instructions:\n" ++
    "- Analyze the client" ++ apos ++ "s profile and portfolio performance.\n" ++
    "- Provide insights tailored to the client" ++ apos ++
    "s risk tolerance and investment goals.\n" ++
    "- Highlight any significant risks or opportunities based on the market outlook.\n" ++
    "- Avoid repeating information from the portfolio summary.\n"

/-- `recommendations_prompt` (`task.py` lines 113-127). -/
def recommendations_prompt : String :=
  "\nClient Profile: {client_profile}\n" ++
    "Portfolio Summary: {portfolio_summary}\n" ++
    "Risk Metrics: {risk_metrics}\n" ++
    "Market Outlook: {market_outlook}\n\n" ++
    "Instructions:\n" ++
    "- Provide actionable recommendations based on the client" ++ apos ++
    "s profile and portfolio performance.\n" ++
    "- Suggest adjustments to the portfolio if necessary.\n" ++
    "- Include a forward-looking outlook based on the market conditions.\n" ++
    "- Be specific and avoid generic advice.\n"

/-- Compliance note chosen for `region == "US"` (`task.py` line 132). -/
def usComplianceNote : String :=
  "This report complies with SEC regulations, including disclosures on risk and performance."

/-- Compliance note chosen for `region == "EU"` (`task.py` line 134). -/
def euComplianceNote : String :=
  "This report complies with MiFID II regulations, including disclosures on costs, risks, and performance."

/-- Compliance note chosen for every other region (`task.py` line 136). -/
def genericComplianceNote : String :=
  "This report includes standard risk and performance disclosures."

/-- `get_disclosures_prompt` (`task.py` lines 130-150): pick the compliance
note by region and splice it into the fixed template. -/
def get_disclosures_prompt (region : String) : String :=
  let compliance_note :=
    if region = "US" then usComplianceNote
    else if region = "EU" then euComplianceNote
    else genericComplianceNote
  "\nClient Profile: {client_profile}\n" ++
    "Investment Products: {investment_products}\n" ++
    "Risk Metrics: {risk_metrics}\n\n" ++
    "Instructions:\n" ++
    "1. Provide standard risk disclosures. Be specific about the risks, including those related to the risk metrics.\n" ++
    "2. " ++ compliance_note ++ "\n" ++
    "3. Avoid including outdated or irrelevant information.\n"

/-! ### Rendering values and `str.format` -/

/-- How an f-string substitution renders a present-or-`None` value:
`str(None)` is `"None"`, a string renders as itself. -/
def pyFormatVal : Option String → String
  | none => "None"
  | some s => s

/-- Python `repr` of a present-or-`None` string value, as it appears inside
`str(dict)`: `None` bare, a string in quotes (the single-quote variant). -/
def pyReprVal : Option String → String
  | none => "None"
  | some s => apos ++ s ++ apos

/-- `str` of the `client_profile` dict, as substituted for the
`client_profile` placeholder (keys in insertion order). -/
def reprClientProfile (cp : ClientProfile) : String :=
  (Char.ofNat 123).toString ++
    apos ++ "name" ++ apos ++ ": " ++ pyReprVal cp.name ++ ", " ++
    apos ++ "risk_tolerance" ++ apos ++ ": " ++ pyReprVal cp.risk_tolerance ++ ", " ++
    apos ++ "investment_goals" ++ apos ++ ": " ++ pyReprVal cp.investment_goals ++
    (Char.ofNat 125).toString

/-- The substitution mapping `**input_data` presents to `str.format`: every
placeholder name used by the four templates, rendered as f-string
substitution renders it. -/
def inputLookup (d : InputData) : String → String := fun k =>
  if k = "portfolio_name" then pyFormatVal d.portfolio_name
  else if k = "client_profile" then reprClientProfile d.client_profile
  else if k = "benchmark" then pyFormatVal d.benchmark
  else if k = "asset_allocation" then pyFormatVal d.asset_allocation
  else if k = "return_net" then pyFormatVal d.return_net
  else if k = "return_benchmark" then pyFormatVal d.return_benchmark
  else if k = "risk_metrics" then pyFormatVal d.risk_metrics
  else if k = "top_holdings" then pyFormatVal d.top_holdings
  else if k = "underperforming_holdings" then pyFormatVal d.underperforming_holdings
  else if k = "investment_products" then pyFormatVal d.investment_products
  else if k = "market_outlook" then pyFormatVal d.market_outlook
  else if k = "date_range" then pyFormatVal d.date_range
  else if k = "region" then d.region
  else if k = "portfolio_summary" then pyFormatVal d.portfolio_summary
  else ""

/-- Scanner for `str.format`-style substitution.  In copy mode (`none`)
characters pass through until an opening brace; in key mode (`some acc`) the
field name accumulates (reversed) until the closing brace, whereupon the
looked-up value is emitted; substituted values are not re-scanned.  An
unterminated brace (which would raise in Python) never occurs in these
templates. -/
def fmtAux (vals : String → String) : Option (List Char) → List Char → List Char
  | none, [] => []
  | none, c :: rest =>
      if c.toNat = 123 then fmtAux vals (some []) rest else c :: fmtAux vals none rest
  | some _, [] => []
  | some acc, c :: rest =>
      if c.toNat = 125 then (vals (String.mk acc.reverse)).data ++ fmtAux vals none rest
      else fmtAux vals (some (c :: acc)) rest

/-- `str.format` for templates whose braces enclose plain field names (the
only shape these templates use): replace each `\x7bname\x7d` by `vals name`. -/
def pyFormatChars (vals : String → String) (l : List Char) : List Char :=
  fmtAux vals none l

/-- String-level `str.format`. -/
def pyFormat (template : String) (vals : String → String) : String :=
  String.mk (pyFormatChars vals template.data)

/-! ### The `index` route, POST branch (`task.py` lines 159-238)

The `generator` pipeline is an oracle taking the call number (0-3) and the
rendered prompt; `Except.error msg` models the call raising with message
`msg`.  The result records the final store file, the prompts actually sent
(in order), how many times `save_report` ran, and the `report` / `report_id`
values handed to `render_template`. -/

/-- Python truthiness of a form value: `None` and the empty string are
falsy. -/
def pyTruthy : Option String → Bool
  | none => false
  | some s => !(s = "")

/-- `task.py` lines 162-180: build `input_data` from the form. -/
def buildInput (data : Form) : InputData :=
  { portfolio_name := data.portfolio_name
    client_profile :=
      { name := data.client_name
        risk_tolerance := some (data.risk_tolerance.getD "moderate")
        investment_goals := data.investment_goals }
    benchmark := data.benchmark
    asset_allocation := data.asset_allocation
    return_net := data.return_net
    return_benchmark := data.return_benchmark
    risk_metrics := data.risk_metrics
    top_holdings := data.top_holdings
    underperforming_holdings := data.underperforming_holdings
    investment_products := data.investment_products
    market_outlook := data.market_outlook
    date_range := data.date_range
    region := data.region.getD "US"
    portfolio_summary := none }

/-- What one POST request leaves behind. -/
structure IndexResult where
  store : StoreFile
  prompts : List String
  saveCalls : Nat
  report : Option String
  report_id : Option String
deriving DecidableEq

/-- The inline error fragment built by the `except` branch
(`task.py` line 238); the surrounding HTML tag is elided. -/
def errorReport (msg : String) : String := "Error generating report: " ++ msg

/-- The message of the `ValueError` raised at `task.py` line 187. -/
def missingFieldsMsg : String :=
  "Missing required fields: portfolio_name, client_name, or date_range."

/-- The success page fragment (`task.py` lines 225-236), with the literal
HTML markup elided down to its interpolated report pieces. -/
def successReport (input_data : InputData) (report_id : String)
    (portfolio_summary client_insights recommendations disclosures : String) : String :=
  "Investment Report - " ++ pyFormatVal input_data.portfolio_name ++ " - " ++
    pyFormatVal input_data.date_range ++ "\nReport ID: " ++ report_id ++
    "\nPortfolio Performance Summary\n" ++ portfolio_summary ++
    "\nClient-Specific Insights\n" ++ client_insights ++
    "\nRecommendations and Outlook\n" ++ recommendations ++
    "\nCompliance Disclosures\n" ++ disclosures

/-- Early-failure result: no save happened, the store is untouched. -/
def failResult (file : StoreFile) (prompts : List String) (msg : String) : IndexResult :=
  { store := file, prompts := prompts, saveCalls := 0,
    report := some (errorReport msg), report_id := none }

/-- The POST branch of `index` (`task.py` lines 159-238).  The whole body
runs inside one `try`: a raise anywhere lands in the `except` branch, which
keeps whatever `report_id` already held (still `None` for every raise before
line 211, the computed hash when `save_report` raises at line 222). -/
def index (data : Form) (generator : Nat → String → Except String String)
    (file : StoreFile) : IndexResult :=
  let input_data := buildInput data
  if pyTruthy input_data.portfolio_name && pyTruthy input_data.client_profile.name &&
      pyTruthy input_data.date_range then
    let p1 := pyFormat (get_portfolio_summary_prompt input_data.client_profile)
      (inputLookup input_data)
    match generator 0 p1 with
    | Except.error e => failResult file [p1] e
    | Except.ok portfolio_summary_text =>
      let portfolio_summary := extractSummary portfolio_summary_text
      let input2 := { input_data with portfolio_summary := some portfolio_summary }
      let p2 := pyFormat client_insights_prompt (inputLookup input2)
      match generator 1 p2 with
      | Except.error e => failResult file [p1, p2] e
      | Except.ok client_insights =>
        let p3 := pyFormat recommendations_prompt (inputLookup input2)
        match generator 2 p3 with
        | Except.error e => failResult file [p1, p2, p3] e
        | Except.ok recommendations =>
          let p4 := pyFormat (get_disclosures_prompt input2.region) (inputLookup input2)
          match generator 3 p4 with
          | Except.error e => failResult file [p1, p2, p3, p4] e
          | Except.ok disclosures =>
            let report_text := reportText portfolio_summary client_insights recommendations
              disclosures
            let report_id := generate_report_id report_text
            let report_data : Report :=
              { report_id := report_id
                portfolio_summary := portfolio_summary
                client_insights := client_insights
                recommendations := recommendations
                disclosures := disclosures
                input_data := input2 }
            match save_report file report_data with
            | Except.error e =>
                { store := file, prompts := [p1, p2, p3, p4], saveCalls := 1,
                  report := some (errorReport e), report_id := some report_id }
            | Except.ok file2 =>
                { store := file2, prompts := [p1, p2, p3, p4], saveCalls := 1,
                  report := some (successReport input2 report_id portfolio_summary
                    client_insights recommendations disclosures),
                  report_id := some report_id }
  else
    failResult file [] missingFieldsMsg

/-! ### Concrete sample data for witnesses -/

/-- A concrete `input_data` value, tagged so distinct samples differ. -/
def mkInput (tag : String) : InputData :=
  { portfolio_name := some tag
    client_profile :=
      { name := some "N", risk_tolerance := some "moderate", investment_goals := none }
    benchmark := none
    asset_allocation := none
    return_net := none
    return_benchmark := none
    risk_metrics := none
    top_holdings := none
    underperforming_holdings := none
    investment_products := none
    market_outlook := none
    date_range := some "Q1"
    region := "US"
    portfolio_summary := some "S" }

/-- A concrete report record with a chosen identifier and tag. -/
def mkReportSample (rid tag : String) : Report :=
  { report_id := rid
    portfolio_summary := "sum " ++ tag
    client_insights := "ins " ++ tag
    recommendations := "rec " ++ tag
    disclosures := "dis " ++ tag
    input_data := mkInput tag }

/-- Sample report for the C4 witness. -/
def c4Report : Report := mkReportSample "id4" "four"

/-- Prior entry at key `"a"` for the C8 witness. -/
def c8ReportA : Report := mkReportSample "a" "eight-a"

/-- Prior entry at key `"b"` for the C8 witness. -/
def c8ReportB : Report := mkReportSample "b" "eight-b"

/-- Overwriting record at key `"a"` for the C8 witness. -/
def c8ReportA2 : Report := mkReportSample "a" "eight-a2"

/-! ### Store lemmas -/

/-- Dict assignment followed by lookup of the same key yields the assigned
value. -/
theorem lookup_insertReport_self (m : List (String × Report)) (k : String) (v : Report) :
    lookupReports (insertReport m k v) k = some v := by
  induction m with
  | nil => simp [insertReport, lookupReports]
  | cons hd tl ih =>
      obtain ⟨k0, v0⟩ := hd
      by_cases h : k0 = k
      · simp [insertReport, lookupReports, h]
      · simp [insertReport, lookupReports, h, ih]

/-- Dict assignment leaves the lookup of every other key unchanged. -/
theorem lookup_insertReport_other (m : List (String × Report)) (k : String) (v : Report)
    (k2 : String) (hne : k2 ≠ k) :
    lookupReports (insertReport m k v) k2 = lookupReports m k2 := by
  have hne2 : ¬ k = k2 := fun h => hne h.symm
  induction m with
  | nil => simp [insertReport, lookupReports, hne2]
  | cons hd tl ih =>
      obtain ⟨k0, v0⟩ := hd
      by_cases h : k0 = k
      · subst h
        simp [insertReport, lookupReports, hne2]
      · by_cases h2 : k0 = k2
        · simp [insertReport, lookupReports, h, h2, hne]
        · simp [insertReport, lookupReports, h, h2, ih]

/-- C4: a successful `save_report` followed by `load_reports` yields a
mapping containing the saved `report_id`, whose entry carries the four
section strings unchanged. -/
theorem save_then_load_roundtrip (file : StoreFile) (rd : Report) (file2 : StoreFile)
    (h : save_report file rd = Except.ok file2) :
    ∃ r, lookupReports (load_reports file2) rd.report_id = some r ∧
      r.portfolio_summary = rd.portfolio_summary ∧
      r.client_insights = rd.client_insights ∧
      r.recommendations = rd.recommendations ∧
      r.disclosures = rd.disclosures := by
  cases file with
  | absent =>
      simp only [save_report, Except.ok.injEq] at h
      subst h
      exact ⟨rd, by simp [load_reports, lookup_insertReport_self], rfl, rfl, rfl, rfl⟩
  | corrupt => simp [save_report] at h
  | good m =>
      simp only [save_report, Except.ok.injEq] at h
      subst h
      exact ⟨rd, by simp [load_reports, lookup_insertReport_self], rfl, rfl, rfl, rfl⟩

/-- Witness for C4 at a concrete store and report. -/
theorem save_then_load_roundtrip_witness :
    ∃ r, lookupReports (load_reports (StoreFile.good (insertReport [] c4Report.report_id
        c4Report))) c4Report.report_id = some r ∧
      r.portfolio_summary = c4Report.portfolio_summary ∧
      r.client_insights = c4Report.client_insights ∧
      r.recommendations = c4Report.recommendations ∧
      r.disclosures = c4Report.disclosures :=
  save_then_load_roundtrip StoreFile.absent c4Report _ rfl

/-- C8: a successful `save_report` sets exactly the entry at the
`report_id`; every entry under any other identifier is exactly what loading
the prior store yields. -/
theorem save_preserves_other_entries (file : StoreFile) (rd : Report) (file2 : StoreFile)
    (h : save_report file rd = Except.ok file2) :
    lookupReports (load_reports file2) rd.report_id = some rd ∧
    ∀ k, k ≠ rd.report_id →
      lookupReports (load_reports file2) k = lookupReports (load_reports file) k := by
  cases file with
  | absent =>
      simp only [save_report, Except.ok.injEq] at h
      subst h
      refine ⟨by simp [load_reports, lookup_insertReport_self], fun k hk => ?_⟩
      simp only [load_reports]
      rw [lookup_insertReport_other _ _ _ _ hk]
  | corrupt => simp [save_report] at h
  | good m =>
      simp only [save_report, Except.ok.injEq] at h
      subst h
      refine ⟨by simp [load_reports, lookup_insertReport_self], fun k hk => ?_⟩
      simp only [load_reports]
      rw [lookup_insertReport_other _ _ _ _ hk]

/-- Witness for C8: overwriting the entry at key `"a"` of a two-entry store
leaves the entry at key `"b"` as it was. -/
theorem save_preserves_other_entries_witness :
    lookupReports (load_reports (StoreFile.good (insertReport [("a", c8ReportA), ("b", c8ReportB)]
      "a" c8ReportA2))) "b" =
    lookupReports (load_reports (StoreFile.good [("a", c8ReportA), ("b", c8ReportB)])) "b" :=
  (save_preserves_other_entries (StoreFile.good [("a", c8ReportA), ("b", c8ReportB)])
    c8ReportA2 _ rfl).2 "b" (by decide)

/-- C9: `load_reports` is total — the parsed mapping for a readable file and
the empty mapping when the file is absent or unreadable — while `save_report`
re-raises when the store cannot be read. -/
theorem load_never_raises_save_reraises :
    load_reports StoreFile.absent = [] ∧
    load_reports StoreFile.corrupt = [] ∧
    (∀ m, load_reports (StoreFile.good m) = m) ∧
    (∀ rd, ∃ e, save_report StoreFile.corrupt rd = Except.error e) :=
  ⟨rfl, rfl, fun _ => rfl, fun _ => ⟨_, rfl⟩⟩

/-! ### Extraction theorems -/

/-- The backtracking scan `lastMarkerLe` finds exactly the last element of
the increasing list of marker positions up to `n`. -/
theorem lastMarkerLe_eq_filter_getLast (s : List Char) (n : Nat) :
    lastMarkerLe s n =
      ((List.range (n + 1)).filter (fun i => markerAt (s.drop i))).getLast? := by
  induction n with
  | zero =>
      rw [List.range_succ, List.range_zero, List.nil_append]
      by_cases h : markerAt s <;>
        simp [lastMarkerLe, h, List.filter_cons, List.drop_zero]
  | succ n ih =>
      rw [show n + 1 + 1 = (n + 1) + 1 from rfl, List.range_succ, List.filter_append]
      by_cases h : markerAt (s.drop (n + 1))
      · simp only [lastMarkerLe, h, if_pos, List.filter, List.getLast?_concat]
      · simp only [lastMarkerLe, h, if_neg, Bool.false_eq_true, not_false_eq_true,
          List.filter, List.append_nil, ih]

/-- C1 (amended): the extraction returns everything strictly before the
*last* position at which a boundary marker starts (stripped), the whole
text stripped when there is none; on the example of the spec it yields
`"Summary here."`. -/
theorem extract_takes_text_before_last_marker (s : String) :
    extractSummary s = extractLastSpecStr s ∧
    extractSummary "Summary here. Instructions: do X" = "Summary here." ∧
    extractSummary "no boundary marker here" = "no boundary marker here" := by
  refine ⟨?_, by decide, by decide⟩
  unfold extractSummary extractLastSpecStr extractSummaryChars extractLastSpec markerPositions
  rw [lastMarkerLe_eq_filter_getLast]

/-- C1 counterexample: at two explicit inputs the extraction disagrees with
the first-occurrence description of the claim (`extractFirstSpecStr`): with two
`Instructions:` markers the code keeps everything before the *last* one, and
a capitalized word with whitespace before its colon is a boundary for the
code but not for the claim. -/
theorem extract_first_occurrence_refuted :
    extractSummary "Summary. Instructions: a Instructions: b" = "Summary. Instructions: a" ∧
    extractFirstSpecStr "Summary. Instructions: a Instructions: b" = "Summary." ∧
    extractSummary "x Ab : y" = "x" ∧
    extractFirstSpecStr "x Ab : y" = "x Ab : y" := by
  refine ⟨by decide, by decide, by decide, by decide⟩

/-! ### Prompt-builder theorems -/

/-- Which of the three risk sentences a rendered template contains:
(conservative, aggressive, moderate). -/
def riskNoteFlags (t : String) : Bool × Bool × Bool :=
  (containsSubstrStr conservativeRiskNote t, containsSubstrStr aggressiveRiskNote t,
    containsSubstrStr moderateRiskNote t)

/-- C6: the portfolio-summary prompt embeds exactly the risk sentence keyed
by `risk_tolerance` — the conservative sentence for `"conservative"`, the
aggressive one for `"aggressive"`, and the moderate one for every other
value, including an absent key — and never either of the other two. -/
theorem summary_prompt_risk_note_selection (cp : ClientProfile) :
    (cp.risk_tolerance = some "conservative" →
      riskNoteFlags (get_portfolio_summary_prompt cp) = (true, false, false)) ∧
    (cp.risk_tolerance = some "aggressive" →
      riskNoteFlags (get_portfolio_summary_prompt cp) = (false, true, false)) ∧
    (∀ rt, cp.risk_tolerance = some rt → rt ≠ "conservative" → rt ≠ "aggressive" →
      riskNoteFlags (get_portfolio_summary_prompt cp) = (false, false, true)) ∧
    (cp.risk_tolerance = none →
      riskNoteFlags (get_portfolio_summary_prompt cp) = (false, false, true)) := by
  refine ⟨fun h => ?_, fun h => ?_, fun rt h h1 h2 => ?_, fun h => ?_⟩
  · simp only [get_portfolio_summary_prompt, h, Option.getD_some]
    decide
  · simp only [get_portfolio_summary_prompt, h, Option.getD_some]
    decide
  · simp only [get_portfolio_summary_prompt, h, Option.getD_some]
    rw [if_neg h1, if_neg h2]
    decide
  · simp only [get_portfolio_summary_prompt, h, Option.getD_none]
    decide

/-- Witness for C6 at `risk_tolerance = "aggressive"`: the rendered template
contains the aggressive sentence and neither of the other two. -/
theorem summary_prompt_risk_note_selection_witness :
    riskNoteFlags (get_portfolio_summary_prompt
      ⟨some "N", some "aggressive", none⟩) = (false, true, false) :=
  (summary_prompt_risk_note_selection ⟨some "N", some "aggressive", none⟩).2.1 rfl

/-- Which of the three compliance sentences a rendered template contains:
(US, EU, generic). -/
def complianceNoteFlags (t : String) : Bool × Bool × Bool :=
  (containsSubstrStr usComplianceNote t, containsSubstrStr euComplianceNote t,
    containsSubstrStr genericComplianceNote t)

/-- C7: the disclosures prompt embeds exactly the compliance sentence keyed
by region — SEC for `"US"`, MiFID II for `"EU"`, the generic sentence for
every other value — and never either of the other two. -/
theorem disclosures_prompt_compliance_note_selection (region : String) :
    (region = "US" →
      complianceNoteFlags (get_disclosures_prompt region) = (true, false, false)) ∧
    (region = "EU" →
      complianceNoteFlags (get_disclosures_prompt region) = (false, true, false)) ∧
    (region ≠ "US" → region ≠ "EU" →
      complianceNoteFlags (get_disclosures_prompt region) = (false, false, true)) := by
  refine ⟨fun h => ?_, fun h => ?_, fun h1 h2 => ?_⟩
  · subst h
    decide
  · subst h
    decide
  · simp only [get_disclosures_prompt]
    rw [if_neg h1, if_neg h2]
    decide

/-- Witness for C7 at `region = "EU"`: the rendered template contains the
MiFID II sentence and neither of the other two. -/
theorem disclosures_prompt_compliance_note_selection_witness :
    complianceNoteFlags (get_disclosures_prompt "EU") = (false, true, false) :=
  (disclosures_prompt_compliance_note_selection "EU").2.1 rfl

/-! ### Request-handler theorems -/

/-- The store, save-invocation count, and `report_id` one request leaves. -/
def outcomeView (r : IndexResult) : StoreFile × Nat × Option String :=
  (r.store, r.saveCalls, r.report_id)

/-- C3: when any of the three required fields is missing, the request fails
with the validation message before any generator call, leaving the store
untouched and never invoking `save_report`. -/
theorem missing_required_field_fails_before_generation (data : Form)
    (generator : Nat → String → Except String String) (file : StoreFile)
    (h : data.portfolio_name = none ∨ data.client_name = none ∨ data.date_range = none) :
    index data generator file =
      { store := file, prompts := [], saveCalls := 0,
        report := some (errorReport missingFieldsMsg), report_id := none } := by
  rcases h with h | h | h <;>
    simp [index, buildInput, pyTruthy, h, failResult]

/-- Concrete form missing `date_range`, for the C3 witness. -/
def c3Form : Form :=
  { portfolio_name := some "P", client_name := some "C", risk_tolerance := none,
    investment_goals := none, benchmark := none, asset_allocation := none,
    return_net := none, return_benchmark := none, risk_metrics := none,
    top_holdings := none, underperforming_holdings := none, investment_products := none,
    market_outlook := none, date_range := none, region := none }

/-- Generator oracle that would answer every call, for the C3 witness. -/
def c3Gen : Nat → String → Except String String := fun _ _ => Except.ok "text"

/-- Witness for C3: a form without `date_range` fails fast. -/
theorem missing_required_field_fails_before_generation_witness :
    index c3Form c3Gen StoreFile.absent =
      { store := StoreFile.absent, prompts := [], saveCalls := 0,
        report := some (errorReport missingFieldsMsg), report_id := none } :=
  missing_required_field_fails_before_generation c3Form c3Gen StoreFile.absent
    (Or.inr (Or.inr rfl))

/-- C2: when any one of the four generator calls raises (whatever the
prompt; the third call is `k = 2`), the request as a whole fails:
`save_report` is never invoked, the store file is exactly as before, and no
report identifier is produced. -/
theorem generation_failure_leaves_store_untouched (data : Form)
    (generator : Nat → String → Except String String) (file : StoreFile) (k : Nat)
    (hk : k < 4) (h : ∀ p, ∃ e, generator k p = Except.error e) :
    outcomeView (index data generator file) = (file, 0, none) := by
  interval_cases k
  · simp only [index]
    split
    · split
      · rfl
      · rename_i v heq
        obtain ⟨e, he⟩ := h _
        rw [he] at heq
        cases heq
    · rfl
  · simp only [index]
    split
    · split
      · rfl
      · split
        · rfl
        · rename_i v heq
          obtain ⟨e, he⟩ := h _
          rw [he] at heq
          cases heq
    · rfl
  · simp only [index]
    split
    · split
      · rfl
      · split
        · rfl
        · split
          · rfl
          · rename_i v heq
            obtain ⟨e, he⟩ := h _
            rw [he] at heq
            cases heq
    · rfl
  · simp only [index]
    split
    · split
      · rfl
      · split
        · rfl
        · split
          · rfl
          · split
            · rfl
            · rename_i v heq
              obtain ⟨e, he⟩ := h _
              rw [he] at heq
              cases heq
    · rfl

/-- Concrete valid form for the C2 witness. -/
def c2Form : Form :=
  { portfolio_name := some "P", client_name := some "C", risk_tolerance := none,
    investment_goals := none, benchmark := none, asset_allocation := none,
    return_net := none, return_benchmark := none, risk_metrics := none,
    top_holdings := none, underperforming_holdings := none, investment_products := none,
    market_outlook := none, date_range := some "D", region := none }

/-- Generator oracle whose third call raises, for the C2 witness. -/
def c2Gen : Nat → String → Except String String := fun i _ =>
  if i = 2 then Except.error "boom" else Except.ok "text"

/-- Prior store entry for the C2 witness. -/
def c2Prior : Report := mkReportSample "k" "two"

/-- Witness for C2: with a populated store and a generator whose third call
raises, the request leaves the store as it was and saves nothing. -/
theorem generation_failure_leaves_store_untouched_witness :
    outcomeView (index c2Form c2Gen (StoreFile.good [("k", c2Prior)])) =
      (StoreFile.good [("k", c2Prior)], 0, none) :=
  generation_failure_leaves_store_untouched c2Form c2Gen (StoreFile.good [("k", c2Prior)])
    2 (by decide) (fun _ => ⟨"boom", rfl⟩)

/-- Concrete fully-populated form for C10. -/
def c10Form : Form :=
  { portfolio_name := some "Alpha", client_name := some "Ben",
    risk_tolerance := some "moderate", investment_goals := some "G", benchmark := some "B",
    asset_allocation := some "AA", return_net := some "1", return_benchmark := some "2",
    risk_metrics := some "RM", top_holdings := some "TH", underperforming_holdings := some "UH",
    investment_products := some "IP", market_outlook := some "MO", date_range := some "Q1",
    region := some "US" }

/-- Generator whose first candidate starts with a boundary marker. -/
def c10Gen : Nat → String → Except String String := fun i _ =>
  if i = 0 then Except.ok "Instructions: do X" else Except.ok "generated"

/-- The canonical report text produced in the C10 run: empty summary, then
the three verbatim generated sections. -/
def c10Text : String := "\ngenerated\ngenerated\ngenerated"

/-- The `input_data` mapping of the C10 run after the extracted (empty)
summary is stored back into it. -/
def c10Input2 : InputData := { buildInput c10Form with portfolio_summary := some "" }

/-- The report record the C10 run persists. -/
def c10Report : Report :=
  { report_id := generate_report_id c10Text
    portfolio_summary := ""
    client_insights := "generated"
    recommendations := "generated"
    disclosures := "generated"
    input_data := c10Input2 }

/-- C10: when the first candidate text starts with a boundary marker and has
no later one, the extracted summary is the empty string; it is stored into
the input mapping, spliced (as nothing) into the later prompts, and persisted
in the report record. -/
theorem empty_summary_propagates :
    extractSummary "Instructions: do X" = "" ∧
    c10Input2.portfolio_summary = some "" ∧
    (index c10Form c10Gen StoreFile.absent).prompts.map
        (containsSubstrStr "Portfolio Summary: \nRisk Metrics: RM") =
      [false, true, true, false] ∧
    (index c10Form c10Gen StoreFile.absent).store =
      StoreFile.good [(generate_report_id c10Text, c10Report)] ∧
    c10Report.portfolio_summary = "" := by
  refine ⟨by decide, rfl, by decide, ?_, rfl⟩
  rfl

/-! ### Report-identifier theorems -/

/-- Appending a fixed string on the right is injective. -/
theorem stringAppend_inj_left {a b t : String} (h : a ++ t = b ++ t) : a = b := by
  apply String.ext
  have hd := congrArg String.data h
  simp only [String.data_append] at hd
  exact List.append_cancel_right hd

/-- Appending a fixed string on the left is injective. -/
theorem stringAppend_inj_right {t a b : String} (h : t ++ a = t ++ b) : a = b := by
  apply String.ext
  have hd := congrArg String.data h
  simp only [String.data_append] at hd
  exact List.append_cancel_left hd

/-- C5 (amended): the identifier is a deterministic function of the
canonical report text, and changing any single one of the four sections
(keeping the other three) changes the canonical report text.  (Whether the
*identifier* also changes is exactly SHA-256 collision-freeness, refuted in
principle by `report_id_section_injectivity_refuted`.) -/
theorem report_id_deterministic_and_text_injective (a b c d a2 b2 c2 d2 : String) :
    ((a = a2 ∧ b = b2 ∧ c = c2 ∧ d = d2) →
      generate_report_id (reportText a b c d) = generate_report_id (reportText a2 b2 c2 d2)) ∧
    ((a ≠ a2 ∧ b = b2 ∧ c = c2 ∧ d = d2) → reportText a b c d ≠ reportText a2 b2 c2 d2) ∧
    ((a = a2 ∧ b ≠ b2 ∧ c = c2 ∧ d = d2) → reportText a b c d ≠ reportText a2 b2 c2 d2) ∧
    ((a = a2 ∧ b = b2 ∧ c ≠ c2 ∧ d = d2) → reportText a b c d ≠ reportText a2 b2 c2 d2) ∧
    ((a = a2 ∧ b = b2 ∧ c = c2 ∧ d ≠ d2) → reportText a b c d ≠ reportText a2 b2 c2 d2) := by
  refine ⟨?_, ?_, ?_, ?_, ?_⟩
  · rintro ⟨rfl, rfl, rfl, rfl⟩
    rfl
  · rintro ⟨h1, rfl, rfl, rfl⟩ heq
    apply h1
    simp only [reportText, String.append_assoc] at heq
    exact stringAppend_inj_left heq
  · rintro ⟨rfl, h2, rfl, rfl⟩ heq
    apply h2
    simp only [reportText, String.append_assoc] at heq
    exact stringAppend_inj_left (stringAppend_inj_right (stringAppend_inj_right heq))
  · rintro ⟨rfl, rfl, h3, rfl⟩ heq
    apply h3
    simp only [reportText, String.append_assoc] at heq
    exact stringAppend_inj_left
      (stringAppend_inj_right (stringAppend_inj_right
        (stringAppend_inj_right (stringAppend_inj_right heq))))
  · rintro ⟨rfl, rfl, rfl, h4⟩ heq
    apply h4
    simp only [reportText, String.append_assoc] at heq
    exact stringAppend_inj_right (stringAppend_inj_right
      (stringAppend_inj_right (stringAppend_inj_right
        (stringAppend_inj_right (stringAppend_inj_right heq)))))

/-- Witness for C5: changing the first section at a concrete input changes
the canonical report text. -/
theorem report_id_deterministic_and_text_injective_witness :
    reportText "a" "b" "c" "d" ≠ reportText "z" "b" "c" "d" :=
  (report_id_deterministic_and_text_injective "a" "b" "c" "d" "z" "b" "c" "d").2.1
    ⟨by decide, rfl, rfl, rfl⟩

/-- Folding 32-bit digits into an accumulator stays below
`M * wordMod ^ length`. -/
theorem combineWords_foldl_lt (ws : List Nat) :
    ∀ acc M : Nat, acc < M →
      List.foldl (fun a w => a * wordMod + w % wordMod) acc ws < M * wordMod ^ ws.length := by
  induction ws with
  | nil =>
      intro acc M h
      simpa using h
  | cons w ws ih =>
      intro acc M h
      have hm : w % wordMod < wordMod := Nat.mod_lt _ (by norm_num [wordMod])
      have hstep : acc * wordMod + w % wordMod < M * wordMod := by
        have h1 : acc * wordMod + w % wordMod < (acc + 1) * wordMod := by
          rw [Nat.succ_mul]
          omega
        exact lt_of_lt_of_le h1 (Nat.mul_le_mul_right _ h)
      calc List.foldl (fun a w => a * wordMod + w % wordMod) acc (w :: ws)
          = List.foldl (fun a w => a * wordMod + w % wordMod)
              (acc * wordMod + w % wordMod) ws := rfl
        _ < (M * wordMod) * wordMod ^ ws.length := ih _ _ hstep
        _ = M * wordMod ^ (w :: ws).length := by
              simp only [List.length_cons, pow_succ]
              ring

/-- Eight folded words stay below `2^256`. -/
theorem combineWords_eight_lt (a b c d e f g h8 : Nat) :
    combineWords [a, b, c, d, e, f, g, h8] < wordMod ^ 8 := by
  have h := combineWords_foldl_lt [a, b, c, d, e, f, g, h8] 0 1 Nat.one_pos
  have hlen : ([a, b, c, d, e, f, g, h8] : List Nat).length = 8 := rfl
  rw [hlen, one_mul] at h
  exact h

/-- The SHA-256 digest value is below `2^256`. -/
theorem sha256Nat_lt (msg : List Nat) : sha256Nat msg < wordMod ^ 8 :=
  combineWords_eight_lt (sha256State msg).w0 (sha256State msg).w1 (sha256State msg).w2
    (sha256State msg).w3 (sha256State msg).w4 (sha256State msg).w5 (sha256State msg).w6
    (sha256State msg).w7

/-- C5 counterexample: it is *not* the case that changing one section always
changes the identifier.  The identifier is a fixed-length digest, so the map
from the (infinitely many) first sections to digests cannot be injective;
some two distinct first sections collide. -/
theorem report_id_section_injectivity_refuted :
    ¬ (∀ a a2 b c d : String, a ≠ a2 →
        generate_report_id (reportText a b c d) ≠ generate_report_id (reportText a2 b c d)) := by
  intro h
  obtain ⟨x, y, hne, heq⟩ :=
    Finite.exists_ne_map_eq_of_infinite
      (fun s : String =>
        (⟨sha256Nat (utf8Encode (reportText s "" "" "").data), sha256Nat_lt _⟩ :
          Fin (wordMod ^ 8)))
  apply h x y "" "" "" hne
  have hval : sha256Nat (utf8Encode (reportText x "" "" "").data) =
      sha256Nat (utf8Encode (reportText y "" "" "").data) := congrArg Fin.val heq
  simp only [generate_report_id, hval]

end AutoReport
